import Mathlib

/-!
# signozutils: the observability wrapper of `initializer.go`

A shallow embedding of the Go package `signozutils` (file `initializer.go`).

* Go strings are Lean strings; `len` is the byte length.
* Values of the OpenTelemetry SDK are free terms: an SDK object is named by the
  constructor call that built it, with its arguments.
* What the SDK decides at run time (whether a construction fails, what a
  shutdown returns, what `Start` returns) is a field of the structure `SDK`.
* Effects are recorded in order in `World.events`; the process-global
  registrations of the SDK are fields of `World`.
-/

namespace signozutils

/-! ## Strings -/

/-- Go `unicode.ToLower`. The ASCII branch is the code of the standard library
(`if r <= MaxASCII { if 'A' <= r && r <= 'Z' { r += 'a' - 'A' }; return r }`);
above `MaxASCII` the library consults its Unicode case tables, which are the
parameter `table`. -/
def unicode_ToLower (table : Char → Char) (r : Char) : Char :=
  if r.toNat ≤ 0x7F then
    if 'A'.toNat ≤ r.toNat ∧ r.toNat ≤ 'Z'.toNat then Char.ofNat (r.toNat + ('a'.toNat - 'A'.toNat))
    else r
  else table r

/-- Go `strings.ToLower`: every rune of the string mapped by `unicode.ToLower`. -/
def strings_ToLower (table : Char → Char) (s : String) : String :=
  ⟨s.data.map (unicode_ToLower table)⟩

/-- Go builtin `len` on a string: the number of bytes. -/
def len (s : String) : Nat := s.utf8ByteSize

/-- Lower-case form of a letter `A`..`Z`; every other character is kept. -/
def foldLetter (c : Char) : Char :=
  if 'A'.toNat ≤ c.toNat ∧ c.toNat ≤ 'Z'.toNat then Char.ofNat (c.toNat + 32) else c

/-- Two strings are equal up to the case of the letters `A`..`Z` / `a`..`z`. -/
def caseInsensitiveEq (a b : String) : Prop :=
  a.data.map foldLetter = b.data.map foldLetter

instance (a b : String) : Decidable (caseInsensitiveEq a b) := by
  unfold caseInsensitiveEq; infer_instance

/-- The part of the Unicode case tables that the flag parsing depends on: no
rune above `MaxASCII` has one of the letters of `"false"` as its lower case. -/
def TableKeepsFalseLetters (table : Char → Char) : Prop :=
  ∀ r : Char, 0x7F < r.toNat → table r ∉ ['f', 'a', 'l', 's', 'e']

/-- A concrete case table for evaluation: the two runes above `MaxASCII` whose
lower case is an ASCII letter (U+0130 and the Kelvin sign U+212A), identity
elsewhere. -/
def sampleTable (r : Char) : Char :=
  if r.toNat = 0x130 then 'i' else if r.toNat = 0x212A then 'k' else r

/-! ## Transport options -/

/-- Result of `credentials.NewClientTLSFromCert(cp, serverNameOverride)`. -/
structure TransportCredentials where
  certPool : Option String
  serverNameOverride : String
  deriving DecidableEq, Repr

/-- Go `credentials.NewClientTLSFromCert`. -/
def credentials_NewClientTLSFromCert (cp : Option String) (serverNameOverride : String) :
    TransportCredentials :=
  ⟨cp, serverNameOverride⟩

/-- Options of package `otlptracegrpc` that the wrapper builds. -/
inductive otlptracegrpc_Option where
  | WithTLSCredentials (creds : TransportCredentials)
  | WithInsecure
  | WithEndpoint (endpoint : String)
  deriving DecidableEq, Repr

/-- Options of package `otlpmetricgrpc` that the wrapper builds. -/
inductive otlpmetricgrpc_Option where
  | WithTLSCredentials (creds : TransportCredentials)
  | WithInsecure
  | WithEndpoint (endpoint : String)
  deriving DecidableEq, Repr

/-- The condition of the `if` in `initTracer`:
`strings.ToLower(t.insecure) == "false" || t.insecure == "0" || strings.ToLower(t.insecure) == "f"`. -/
def initTracer_cond (table : Char → Char) (insecure : String) : Bool :=
  strings_ToLower table insecure == "false" || insecure == "0" ||
    strings_ToLower table insecure == "f"

/-- The `secureOption` that `initTracer` computes from `t.insecure`. -/
def initTracer_secureOption (table : Char → Char) (insecure : String) : otlptracegrpc_Option :=
  if initTracer_cond table insecure then
    .WithTLSCredentials (credentials_NewClientTLSFromCert none "")
  else
    .WithInsecure

/-- The `secureOption` that `initMeter` computes from `t.insecure`: the TLS
option, overwritten when `len(t.insecure) > 0`. -/
def initMeter_secureOption (insecure : String) : otlpmetricgrpc_Option :=
  let secureOption := otlpmetricgrpc_Option.WithTLSCredentials (credentials_NewClientTLSFromCert none "")
  if len insecure > 0 then .WithInsecure else secureOption

/-- The trace option is the secured (TLS credentials) one. -/
def otlptracegrpc_Option.isSecured : otlptracegrpc_Option → Bool
  | .WithTLSCredentials _ => true
  | _ => false

/-- The trace option is the plaintext one. -/
def otlptracegrpc_Option.isInsecure : otlptracegrpc_Option → Bool
  | .WithInsecure => true
  | _ => false

/-- The metric option is the secured (TLS credentials) one. -/
def otlpmetricgrpc_Option.isSecured : otlpmetricgrpc_Option → Bool
  | .WithTLSCredentials _ => true
  | _ => false

/-- The metric option is the plaintext one. -/
def otlpmetricgrpc_Option.isInsecure : otlpmetricgrpc_Option → Bool
  | .WithInsecure => true
  | _ => false

/-! ## Values of the SDK -/

/-- A Go `error` value that is not nil, by the text that `%v` prints. -/
abbrev Error := String

/-- Go `context.Context`: the background context, or a context of the caller. -/
inductive Context where
  | Background
  | Caller (id : Nat)
  deriving DecidableEq, Repr

/-- Go `attribute.KeyValue` with a string value. -/
structure attribute_KeyValue where
  Key : String
  Value : String
  deriving DecidableEq, Repr

/-- Go `attribute.String(k, v)`. -/
def attribute_String (k v : String) : attribute_KeyValue := ⟨k, v⟩

/-- The key `semconv.ServiceNameKey` of package `semconv/v1.4.0`, declared there
as `attribute.Key("service.name")`. -/
def semconv_ServiceNameKey : String := "service.name"

/-- Go method `attribute.Key.String(v)`: the pair of the key and the value. -/
def attribute_Key_String (k : String) (v : String) : attribute_KeyValue := ⟨k, v⟩

/-- Options of `resource.New` that the wrapper builds. -/
inductive resource_Option where
  | WithAttributes (attrs : List attribute_KeyValue)
  deriving DecidableEq, Repr

/-- The resource built by a successful `resource.New(ctx, opts...)`. -/
structure resource_Resource where
  ctx : Context
  opts : List resource_Option
  deriving DecidableEq, Repr

/-- The client built by `otlptracegrpc.NewClient(opts...)`. -/
structure otlptrace_Client where
  opts : List otlptracegrpc_Option
  deriving DecidableEq, Repr

/-- Go `otlptracegrpc.NewClient`. -/
def otlptracegrpc_NewClient (opts : List otlptracegrpc_Option) : otlptrace_Client := ⟨opts⟩

/-- The exporter built by a successful `otlptrace.New(ctx, client)`. -/
structure otlptrace_Exporter where
  ctx : Context
  client : otlptrace_Client
  deriving DecidableEq, Repr

/-- Samplers of package `sdktrace` that the wrapper uses. -/
inductive sdktrace_Sampler where
  | AlwaysSample
  deriving DecidableEq, Repr

/-- Options of `sdktrace.NewTracerProvider` that the wrapper builds. -/
inductive sdktrace_TracerProviderOption where
  | WithSampler (s : sdktrace_Sampler)
  | WithBatcher (e : otlptrace_Exporter)
  | WithResource (r : resource_Resource)
  deriving DecidableEq, Repr

/-- The provider built by `sdktrace.NewTracerProvider(opts...)`. -/
structure sdktrace_TracerProvider where
  opts : List sdktrace_TracerProviderOption
  deriving DecidableEq, Repr

/-- Go `sdktrace.NewTracerProvider`. -/
def sdktrace_NewTracerProvider (opts : List sdktrace_TracerProviderOption) :
    sdktrace_TracerProvider := ⟨opts⟩

/-- Propagators of package `propagation` that the wrapper uses. -/
inductive propagation_Propagator where
  | TraceContext
  | Baggage
  deriving DecidableEq, Repr

/-- Result of `propagation.NewCompositeTextMapPropagator(p...)`. -/
structure propagation_Composite where
  parts : List propagation_Propagator
  deriving DecidableEq, Repr

/-- Go `propagation.NewCompositeTextMapPropagator`. -/
def propagation_NewCompositeTextMapPropagator (p : List propagation_Propagator) :
    propagation_Composite := ⟨p⟩

/-- The exporter built by a successful `otlpmetricgrpc.New(ctx, opts...)`. -/
structure otlpmetricgrpc_Exporter where
  ctx : Context
  opts : List otlpmetricgrpc_Option
  deriving DecidableEq, Repr

/-- The reader built by `metricsdk.NewPeriodicReader(exporter)`. -/
structure metricsdk_PeriodicReader where
  exporter : otlpmetricgrpc_Exporter
  deriving DecidableEq, Repr

/-- Go `metricsdk.NewPeriodicReader`. -/
def metricsdk_NewPeriodicReader (e : otlpmetricgrpc_Exporter) : metricsdk_PeriodicReader := ⟨e⟩

/-- Options of `metricsdk.NewMeterProvider` that the wrapper builds. -/
inductive metricsdk_Option where
  | WithResource (r : resource_Resource)
  | WithReader (rd : metricsdk_PeriodicReader)
  deriving DecidableEq, Repr

/-- The provider built by `metricsdk.NewMeterProvider(opts...)`. -/
structure metricsdk_MeterProvider where
  opts : List metricsdk_Option
  deriving DecidableEq, Repr

/-- Go `metricsdk.NewMeterProvider`. -/
def metricsdk_NewMeterProvider (opts : List metricsdk_Option) : metricsdk_MeterProvider := ⟨opts⟩

/-- Go `api.Meter`: the meter that `provider.Meter(name)` returns. -/
structure api_Meter where
  provider : metricsdk_MeterProvider
  name : String
  deriving DecidableEq, Repr

/-- Go method `(*metricsdk.MeterProvider).Meter(name)`. -/
def metricsdk_MeterProvider.Meter (p : metricsdk_MeterProvider) (name : String) : api_Meter :=
  ⟨p, name⟩

/-- What `otel.GetTracerProvider()` can return: the delegating provider that the
SDK installs at process start, or a provider registered by `otel.SetTracerProvider`. -/
inductive oteltrace_TracerProvider where
  | default
  | registered (p : sdktrace_TracerProvider)
  deriving DecidableEq, Repr

/-- Go `oteltrace.Tracer`: the tracer that `provider.Tracer(name)` returns. -/
structure oteltrace_Tracer where
  provider : oteltrace_TracerProvider
  name : String
  deriving DecidableEq, Repr

/-- Go `oteltrace.Span`, an object of the SDK. -/
structure oteltrace_Span where
  id : Nat
  deriving DecidableEq, Repr

/-- Go `oteltrace.SpanStartOption`, an option of the SDK. -/
structure oteltrace_SpanStartOption where
  id : Nat
  deriving DecidableEq, Repr

/-! ## The process: effects and global registrations -/

/-- One effect of the wrapper, as seen from outside. -/
inductive Event where
  | otlptrace_New (ctx : Context) (client : otlptrace_Client)
  | resource_New (ctx : Context) (opts : List resource_Option)
  | otlpmetricgrpc_New (ctx : Context) (opts : List otlpmetricgrpc_Option)
  | SetTracerProvider (tp : sdktrace_TracerProvider)
  | SetTextMapPropagator (p : propagation_Composite)
  | tracerShutdown (ctx : Context)
  | meterProvider_Shutdown (mp : metricsdk_MeterProvider) (ctx : Context)
  | otelTracer_Start (tr : oteltrace_Tracer) (ctx : Context) (spanName : String)
      (opts : List oteltrace_SpanStartOption)
  | log_Printf (msg : String)
  | log_Println (msg : String)
  | log_Fatalf (msg : String)
  | go (fn : String) (meter : Option api_Meter)
  deriving DecidableEq, Repr

/-- State of the process that the wrapper reads and writes: the global trace
provider of package `otel` with the delegate of its default provider, the global
propagator, and the effects so far, oldest first. -/
structure World where
  tracerProvider : oteltrace_TracerProvider
  delegate : Option sdktrace_TracerProvider
  textMapPropagator : Option propagation_Composite
  events : List Event
  deriving DecidableEq, Repr

/-- A process in which nothing has been registered and nothing has happened. -/
def World.fresh : World :=
  { tracerProvider := .default, delegate := none, textMapPropagator := none, events := [] }

/-- Record one effect. -/
def World.emit (w : World) (e : Event) : World :=
  { w with events := w.events ++ [e] }

/-- How a call ends: it returns a value, or the process exits. -/
inductive Outcome (α : Type) where
  | returned (a : α) (w : World)
  | exited (code : Nat) (w : World)
  | panicked (w : World)

/-- The world in which the call ended. -/
def Outcome.world {α : Type} : Outcome α → World
  | .returned _ w => w
  | .exited _ w => w
  | .panicked w => w

/-- What the SDK answers at run time. Every answer may depend on the state of
the process at the time of the call. An answer `none` of a constructor or of a
shutdown is the nil error. -/
structure SDK where
  caseTable : Char → Char
  otlptrace_New : World → Context → otlptrace_Client → Option Error
  resource_New : World → Context → List resource_Option → Option Error
  otlpmetricgrpc_New : World → Context → List otlpmetricgrpc_Option → Option Error
  exporter_Shutdown : otlptrace_Exporter → World → Context → Option Error
  meterProvider_Shutdown : metricsdk_MeterProvider → World → Context → Option Error
  tracer_Start : oteltrace_Tracer → World → Context → String →
    List oteltrace_SpanStartOption → Context × oteltrace_Span

/-- Go `otel.Tracer(name)`, which is `GetTracerProvider().Tracer(name)`. -/
def otel_Tracer (w : World) (name : String) : oteltrace_Tracer :=
  ⟨w.tracerProvider, name⟩

/-- Go `otel.SetTracerProvider(tp)`: the first registration makes the default
provider (and the tracers handed out by it) delegate to `tp`; every
registration replaces the global provider. -/
def otel_SetTracerProvider (tp : sdktrace_TracerProvider) (w : World) : World :=
  let delegate :=
    match w.tracerProvider, w.delegate with
    | .default, none => some tp
    | _, d => d
  { w with tracerProvider := .registered tp, delegate := delegate }.emit (.SetTracerProvider tp)

/-- Go `otel.SetTextMapPropagator(p)`. -/
def otel_SetTextMapPropagator (p : propagation_Composite) (w : World) : World :=
  { w with textMapPropagator := some p }.emit (.SetTextMapPropagator p)

/-- Go `log.Printf` with one `%v` argument at the end of the format. -/
def log_Printf (fmt : String) (err : Error) (w : World) : World :=
  w.emit (.log_Printf (fmt ++ err))

/-- Go `log.Println`. -/
def log_Println (msg : String) (w : World) : World :=
  w.emit (.log_Println msg)

/-- Go `log.Fatalf` with one `%v` argument at the end of the format: the message
is logged and the process exits with status 1 (`os.Exit(1)`). -/
def log_Fatalf {α : Type} (fmt : String) (err : Error) (w : World) : Outcome α :=
  .exited 1 (w.emit (.log_Fatalf (fmt ++ err)))

/-! ## The handle and its operations -/

/-- Go `type tracer struct`. A field that can be nil in Go is an `Option`. -/
structure tracer where
  collectorURL : String
  serviceName : String
  insecure : String
  tracerShutdown : Option (World → Context → Option Error)
  meterProvider : Option metricsdk_MeterProvider
  meter : Option api_Meter
  otelTracer : Option oteltrace_Tracer

/-- Go `(*tracer).StartSpan`. -/
def StartSpan (sdk : SDK) (t : tracer) (ctx : Context) (spanName : String) (w : World) :
    Outcome (Context × oteltrace_Span) :=
  match t.otelTracer with
  | none => .panicked w
  | some otelTracer =>
    let (tracerCtx, span) := sdk.tracer_Start otelTracer w ctx spanName []
    let w := w.emit (.otelTracer_Start otelTracer ctx spanName [])
    .returned (tracerCtx, span) w

/-- Go `(*tracer).Cleanup`. -/
def Cleanup (sdk : SDK) (t : tracer) (ctx : Context) (w : World) : Outcome Unit :=
  let w :=
    match t.tracerShutdown with
    | some tracerShutdown =>
      let err := tracerShutdown w ctx
      let w := w.emit (.tracerShutdown ctx)
      match err with
      | some err => log_Printf "Error shutting down tracer: " err w
      | none => w
    | none => w
  let w :=
    match t.meterProvider with
    | some meterProvider =>
      let err := sdk.meterProvider_Shutdown meterProvider w ctx
      let w := w.emit (.meterProvider_Shutdown meterProvider ctx)
      match err with
      | some err => log_Printf "Error shutting down meter provider: " err w
      | none => w
    | none => w
  .returned () (log_Println "Tracer cleaned up" w)

/-- The attributes that `initTracer` passes to `resource.WithAttributes`; of the
receiver they read `t.serviceName` only. -/
def initTracer_attributes (serviceName : String) : List attribute_KeyValue :=
  [attribute_Key_String semconv_ServiceNameKey serviceName,
   attribute_String "library.language" "go"]

/-- The attributes that `initMeter` passes to `resource.WithAttributes`; of the
receiver they read `t.serviceName` only. -/
def initMeter_attributes (serviceName : String) : List attribute_KeyValue :=
  [attribute_String "service.name" serviceName,
   attribute_String "library.language" "go"]

/-- Go `(*tracer).initTracer`. -/
def initTracer (sdk : SDK) (t : tracer) (w : World) :
    Outcome (World → Context → Option Error) :=
  let secureOption := initTracer_secureOption sdk.caseTable t.insecure
  let client := otlptracegrpc_NewClient [secureOption, .WithEndpoint t.collectorURL]
  let err := sdk.otlptrace_New w .Background client
  let w := w.emit (.otlptrace_New .Background client)
  match err with
  | some err => log_Fatalf "Failed to create exporter: " err w
  | none =>
    let exporter : otlptrace_Exporter := ⟨.Background, client⟩
    let opts := [resource_Option.WithAttributes (initTracer_attributes t.serviceName)]
    let err := sdk.resource_New w .Background opts
    let w := w.emit (.resource_New .Background opts)
    match err with
    | some err => log_Fatalf "Could not set resources: " err w
    | none =>
      let resources : resource_Resource := ⟨.Background, opts⟩
      let w := otel_SetTracerProvider
        (sdktrace_NewTracerProvider
          [.WithSampler .AlwaysSample, .WithBatcher exporter, .WithResource resources]) w
      let w := otel_SetTextMapPropagator
        (propagation_NewCompositeTextMapPropagator [.TraceContext, .Baggage]) w
      let w := log_Println "Tracer initialized" w
      .returned (sdk.exporter_Shutdown exporter) w

/-- Go `(*tracer).initMeter`. -/
def initMeter (sdk : SDK) (t : tracer) (w : World) : Outcome metricsdk_MeterProvider :=
  let secureOption := initMeter_secureOption t.insecure
  let opts := [secureOption, .WithEndpoint t.collectorURL]
  let err := sdk.otlpmetricgrpc_New w .Background opts
  let w := w.emit (.otlpmetricgrpc_New .Background opts)
  match err with
  | some err => log_Fatalf "Failed to create exporter: " err w
  | none =>
    let exporter : otlpmetricgrpc_Exporter := ⟨.Background, opts⟩
    let ropts := [resource_Option.WithAttributes (initMeter_attributes t.serviceName)]
    let err := sdk.resource_New w .Background ropts
    let w := w.emit (.resource_New .Background ropts)
    match err with
    | some err => log_Fatalf "Could not set resources: " err w
    | none =>
      let res : resource_Resource := ⟨.Background, ropts⟩
      let provider := metricsdk_NewMeterProvider
        [.WithResource res, .WithReader (metricsdk_NewPeriodicReader exporter)]
      .returned provider w

/-- Go `(*tracer).generateMetrics`: six `go` statements, each passing `t.meter`. -/
def generateMetrics (t : tracer) (w : World) : World :=
  let w := w.emit (.go "exceptionsCounter" t.meter)
  let w := w.emit (.go "pageFaultsCounter" t.meter)
  let w := w.emit (.go "requestDurationHistogram" t.meter)
  let w := w.emit (.go "roomTemperatureGauge" t.meter)
  let w := w.emit (.go "itemsInQueueUpDownCounter" t.meter)
  let w := w.emit (.go "processHeapSizeUpDownCounter" t.meter)
  w

/-- Go `InitTracer`. -/
def InitTracer (sdk : SDK) (collectorURL serviceName insecure : String) (w : World) :
    Outcome tracer :=
  let t : tracer :=
    { collectorURL := collectorURL, serviceName := serviceName, insecure := insecure,
      tracerShutdown := none, meterProvider := none, meter := none, otelTracer := none }
  let otelTracer := otel_Tracer w t.serviceName
  let t := { t with otelTracer := some otelTracer }
  match initTracer sdk t w with
  | .exited code w => .exited code w
  | .panicked w => .panicked w
  | .returned tracerShutdown w =>
    let t := { t with tracerShutdown := some tracerShutdown }
    match initMeter sdk t w with
    | .exited code w => .exited code w
    | .panicked w => .panicked w
    | .returned meterProvider w =>
      let t := { t with meterProvider := some meterProvider }
      let meter := meterProvider.Meter t.serviceName
      let t := { t with meter := some meter }
      let w := generateMetrics t w
      .returned t w

/-! ## Observations on the effects -/

/-- The effects of a call: what the world holds beyond the effects before it. -/
def newEvents {α : Type} (before : World) (o : Outcome α) : List Event :=
  o.world.events.drop before.events.length

/-- The event is a call of the trace shutdown callback. -/
def Event.isTracerShutdown : Event → Bool
  | .tracerShutdown _ => true
  | _ => false

/-- The event is a call of `Shutdown` on a metric provider. -/
def Event.isMeterProviderShutdown : Event → Bool
  | .meterProvider_Shutdown _ _ => true
  | _ => false

/-- The event is a `go` statement. -/
def Event.isGo : Event → Bool
  | .go _ _ => true
  | _ => false

/-- The event is a call of `resource.New`. -/
def Event.isResourceNew : Event → Bool
  | .resource_New _ _ => true
  | _ => false

/-- The log line of a shutdown: one `log.Printf` for an error, nothing for nil. -/
def errLog (fmt : String) : Option Error → List Event
  | some err => [.log_Printf (fmt ++ err)]
  | none => []

/-- The flag is one of the values that the `if` of `initTracer` names:
`"false"` or `"f"` in any letter case, or `"0"`. -/
def namesFalse (s : String) : Prop :=
  caseInsensitiveEq s "false" ∨ s = "0" ∨ caseInsensitiveEq s "f"

instance (s : String) : Decidable (namesFalse s) := by
  unfold namesFalse; infer_instance

/-- The TLS option as both pipelines build it: client credentials from a nil
certificate pool and an empty server name. -/
def tlsCreds : TransportCredentials := credentials_NewClientTLSFromCert none ""

/-- An SDK for evaluation: every construction succeeds, the trace shutdown
reports an error, the metric shutdown succeeds. -/
def sampleSDK : SDK :=
  { caseTable := sampleTable
    otlptrace_New := fun _ _ _ => none
    resource_New := fun _ _ _ => none
    otlpmetricgrpc_New := fun _ _ _ => none
    exporter_Shutdown := fun _ _ _ => some "context deadline exceeded"
    meterProvider_Shutdown := fun _ _ _ => none
    tracer_Start := fun _ w _ _ _ => (.Caller (w.events.length + 1), ⟨w.events.length⟩) }

/-- A trace shutdown callback for evaluation: it reports an error. -/
def sampleShutdown : World → Context → Option Error :=
  fun _ _ => some "context deadline exceeded"

/-- A handle for evaluation, every field non-nil. -/
def sampleHandle : tracer :=
  { collectorURL := "localhost:4317", serviceName := "svc", insecure := "true"
    tracerShutdown := some sampleShutdown
    meterProvider := some (metricsdk_NewMeterProvider [])
    meter := some ((metricsdk_NewMeterProvider []).Meter "svc")
    otelTracer := some ⟨.default, "svc"⟩ }

/-- A handle for evaluation whose trace shutdown callback is nil. -/
def sampleHandleNoShutdown : tracer :=
  { sampleHandle with tracerShutdown := none }

/-! ## The constructions of one `InitTracer` call

The arguments of the four fallible constructions of a call
`InitTracer(collectorURL, serviceName, insecure)`, the state of the process at
each of them, and the answer of the SDK there, read off `initTracer` and
`initMeter` along the path on which everything before succeeded. -/

/-- The receiver of `initTracer` and `initMeter` inside `InitTracer`, as far as
the two methods read it. -/
def receiver (collectorURL serviceName insecure : String) (w : World) : tracer :=
  { collectorURL := collectorURL, serviceName := serviceName, insecure := insecure,
    tracerShutdown := none, meterProvider := none, meter := none,
    otelTracer := some (otel_Tracer w serviceName) }

/-- The client that `initTracer` passes to `otlptrace.New`. -/
def traceClient (sdk : SDK) (collectorURL insecure : String) : otlptrace_Client :=
  otlptracegrpc_NewClient
    [initTracer_secureOption sdk.caseTable insecure, .WithEndpoint collectorURL]

/-- The options that `initTracer` passes to `resource.New`. -/
def traceResourceOpts (serviceName : String) : List resource_Option :=
  [.WithAttributes (initTracer_attributes serviceName)]

/-- The options that `initMeter` passes to `otlpmetricgrpc.New`. -/
def metricExporterOpts (collectorURL insecure : String) : List otlpmetricgrpc_Option :=
  [initMeter_secureOption insecure, .WithEndpoint collectorURL]

/-- The options that `initMeter` passes to `resource.New`. -/
def metricResourceOpts (serviceName : String) : List resource_Option :=
  [.WithAttributes (initMeter_attributes serviceName)]

/-- The trace provider that `initTracer` constructs and registers. -/
def builtTracerProvider (sdk : SDK) (collectorURL serviceName insecure : String) :
    sdktrace_TracerProvider :=
  sdktrace_NewTracerProvider
    [.WithSampler .AlwaysSample,
     .WithBatcher ⟨.Background, traceClient sdk collectorURL insecure⟩,
     .WithResource ⟨.Background, traceResourceOpts serviceName⟩]

/-- The metric provider that `initMeter` constructs. -/
def builtMeterProvider (collectorURL serviceName insecure : String) : metricsdk_MeterProvider :=
  metricsdk_NewMeterProvider
    [.WithResource ⟨.Background, metricResourceOpts serviceName⟩,
     .WithReader (metricsdk_NewPeriodicReader
       ⟨.Background, metricExporterOpts collectorURL insecure⟩)]

/-- The process when `initTracer` calls `resource.New`. -/
def atTraceResource (sdk : SDK) (collectorURL insecure : String) (w : World) : World :=
  w.emit (.otlptrace_New .Background (traceClient sdk collectorURL insecure))

/-- The process when `initTracer` has returned. -/
def afterInitTracer (sdk : SDK) (collectorURL serviceName insecure : String) (w : World) :
    World :=
  log_Println "Tracer initialized"
    (otel_SetTextMapPropagator
      (propagation_NewCompositeTextMapPropagator [.TraceContext, .Baggage])
      (otel_SetTracerProvider (builtTracerProvider sdk collectorURL serviceName insecure)
        ((atTraceResource sdk collectorURL insecure w).emit
          (.resource_New .Background (traceResourceOpts serviceName)))))

/-- The process when `initMeter` calls `resource.New`. -/
def atMetricResource (sdk : SDK) (collectorURL serviceName insecure : String) (w : World) :
    World :=
  (afterInitTracer sdk collectorURL serviceName insecure w).emit
    (.otlpmetricgrpc_New .Background (metricExporterOpts collectorURL insecure))

/-- The process when `initMeter` has returned. -/
def afterInitMeter (sdk : SDK) (collectorURL serviceName insecure : String) (w : World) :
    World :=
  (atMetricResource sdk collectorURL serviceName insecure w).emit
    (.resource_New .Background (metricResourceOpts serviceName))

/-- The error of `otlptrace.New` in `initTracer`. -/
def traceExporterAnswer (sdk : SDK) (collectorURL insecure : String) (w : World) :
    Option Error :=
  sdk.otlptrace_New w .Background (traceClient sdk collectorURL insecure)

/-- The error of `resource.New` in `initTracer`. -/
def traceResourceAnswer (sdk : SDK) (collectorURL serviceName insecure : String) (w : World) :
    Option Error :=
  sdk.resource_New (atTraceResource sdk collectorURL insecure w) .Background
    (traceResourceOpts serviceName)

/-- The error of `otlpmetricgrpc.New` in `initMeter`. -/
def metricExporterAnswer (sdk : SDK) (collectorURL serviceName insecure : String)
    (w : World) : Option Error :=
  sdk.otlpmetricgrpc_New (afterInitTracer sdk collectorURL serviceName insecure w) .Background
    (metricExporterOpts collectorURL insecure)

/-- The error of `resource.New` in `initMeter`. -/
def metricResourceAnswer (sdk : SDK) (collectorURL serviceName insecure : String)
    (w : World) : Option Error :=
  sdk.resource_New (atMetricResource sdk collectorURL serviceName insecure w) .Background
    (metricResourceOpts serviceName)

/-- The handle that a successful `InitTracer` returns. -/
def returnedHandle (sdk : SDK) (collectorURL serviceName insecure : String) (w : World) :
    tracer :=
  { collectorURL := collectorURL, serviceName := serviceName, insecure := insecure,
    tracerShutdown :=
      some (sdk.exporter_Shutdown ⟨.Background, traceClient sdk collectorURL insecure⟩),
    meterProvider := some (builtMeterProvider collectorURL serviceName insecure),
    meter := some ((builtMeterProvider collectorURL serviceName insecure).Meter serviceName),
    otelTracer := some (otel_Tracer w serviceName) }

/-- The effects of `initTracer` when both of its constructions succeed. -/
def traceSetupEvents (sdk : SDK) (collectorURL serviceName insecure : String) : List Event :=
  [.otlptrace_New .Background (traceClient sdk collectorURL insecure),
   .resource_New .Background (traceResourceOpts serviceName),
   .SetTracerProvider (builtTracerProvider sdk collectorURL serviceName insecure),
   .SetTextMapPropagator (propagation_NewCompositeTextMapPropagator [.TraceContext, .Baggage]),
   .log_Println "Tracer initialized"]

/-- The effects of `initMeter` when both of its constructions succeed. -/
def metricSetupEvents (collectorURL serviceName insecure : String) : List Event :=
  [.otlpmetricgrpc_New .Background (metricExporterOpts collectorURL insecure),
   .resource_New .Background (metricResourceOpts serviceName)]

/-- The six `go` statements of `generateMetrics`. -/
def emitterEvents (meter : Option api_Meter) : List Event :=
  [.go "exceptionsCounter" meter, .go "pageFaultsCounter" meter,
   .go "requestDurationHistogram" meter, .go "roomTemperatureGauge" meter,
   .go "itemsInQueueUpDownCounter" meter, .go "processHeapSizeUpDownCounter" meter]

/-- An SDK for evaluation in which the construction of the metric exporter fails. -/
def failingSDK : SDK :=
  { sampleSDK with otlpmetricgrpc_New := fun _ _ _ => some "connection refused" }

theorem unicode_ToLower_ascii (table : Char → Char) (c : Char) (h : c.toNat ≤ 0x7F) :
    unicode_ToLower table c = foldLetter c := by
  have e : 'a'.toNat - 'A'.toNat = 32 := by decide
  simp [unicode_ToLower, foldLetter, h, e]

theorem foldLetter_nonascii (c : Char) (h : 0x7F < c.toNat) : foldLetter c = c := by
  have e : 'Z'.toNat = 90 := by decide
  have : ¬ ('A'.toNat ≤ c.toNat ∧ c.toNat ≤ 'Z'.toNat) := by
    rw [e]; omega
  unfold foldLetter
  rw [if_neg this]

theorem unicode_ToLower_eq_iff (table : Char → Char) (ht : TableKeepsFalseLetters table)
    (c x : Char) (hx : x ∈ ['f', 'a', 'l', 's', 'e']) :
    unicode_ToLower table c = x ↔ foldLetter c = x := by
  by_cases h : c.toNat ≤ 0x7F
  · rw [unicode_ToLower_ascii table c h]
  · have h' : 0x7F < c.toNat := by omega
    have hxa : x.toNat ≤ 0x7F := by
      simp only [List.mem_cons, List.mem_singleton, List.mem_nil_iff, or_false] at hx
      rcases hx with rfl | rfl | rfl | rfl | rfl <;> decide
    rw [foldLetter_nonascii c h']
    have e : unicode_ToLower table c = table c := by simp [unicode_ToLower, h]
    rw [e]
    constructor
    · intro hc; exact absurd (hc ▸ hx) (ht c h')
    · intro hc; subst hc; omega

theorem map_ToLower_eq_iff (table : Char → Char) (ht : TableKeepsFalseLetters table)
    (l t : List Char) (hsub : ∀ x ∈ t, x ∈ ['f', 'a', 'l', 's', 'e']) :
    l.map (unicode_ToLower table) = t ↔ l.map foldLetter = t := by
  induction l generalizing t with
  | nil => simp
  | cons c cs ih =>
    cases t with
    | nil => simp
    | cons x xs =>
      have hx := hsub x (List.mem_cons_self _ _)
      have hxs : ∀ y ∈ xs, y ∈ ['f', 'a', 'l', 's', 'e'] :=
        fun y hy => hsub y (List.mem_cons_of_mem _ hy)
      simp only [List.map_cons, List.cons.injEq]
      rw [unicode_ToLower_eq_iff table ht c x hx, ih xs hxs]

theorem ToLower_eq_false_iff (table : Char → Char) (ht : TableKeepsFalseLetters table)
    (s : String) : strings_ToLower table s = "false" ↔ caseInsensitiveEq s "false" := by
  have e : "false".data.map foldLetter = ['f', 'a', 'l', 's', 'e'] := by decide
  unfold caseInsensitiveEq strings_ToLower
  rw [e, ← map_ToLower_eq_iff table ht s.data _ (fun x hx => hx)]
  exact String.ext_iff

theorem ToLower_eq_f_iff (table : Char → Char) (ht : TableKeepsFalseLetters table)
    (s : String) : strings_ToLower table s = "f" ↔ caseInsensitiveEq s "f" := by
  have e : "f".data.map foldLetter = ['f'] := by decide
  unfold caseInsensitiveEq strings_ToLower
  rw [e, ← map_ToLower_eq_iff table ht s.data _ (fun x hx => by simp at hx; simp [hx])]
  exact String.ext_iff

theorem initTracer_cond_iff (table : Char → Char) (ht : TableKeepsFalseLetters table)
    (s : String) :
    initTracer_cond table s = true ↔
      (caseInsensitiveEq s "false" ∨ s = "0" ∨ caseInsensitiveEq s "f") := by
  unfold initTracer_cond
  simp only [Bool.or_eq_true, beq_iff_eq, or_assoc]
  rw [ToLower_eq_false_iff table ht, ToLower_eq_f_iff table ht]

theorem len_eq_zero_iff (s : String) : len s = 0 ↔ s = "" := by
  constructor
  · intro h
    rcases s with ⟨l⟩
    cases l with
    | nil => rfl
    | cons c cs =>
      exfalso
      have hc := Char.utf8Size_pos c
      simp [len, String.utf8ByteSize, String.utf8ByteSize.go] at h
      omega
  · rintro rfl; rfl

theorem sampleTable_keeps : TableKeepsFalseLetters sampleTable := by
  intro r hr
  unfold sampleTable
  split
  · decide
  · split
    · decide
    · intro hmem
      simp only [List.mem_cons, List.mem_singleton, List.mem_nil_iff, or_false] at hmem
      rcases hmem with h | h | h | h | h <;> (rw [h] at hr; revert hr; decide)

theorem initTracer_secureOption_eq (table : Char → Char) (ht : TableKeepsFalseLetters table)
    (s : String) :
    initTracer_secureOption table s =
      if namesFalse s then .WithTLSCredentials tlsCreds else .WithInsecure := by
  unfold initTracer_secureOption
  by_cases h : namesFalse s
  · rw [if_pos h, if_pos ((initTracer_cond_iff table ht s).2 h)]; rfl
  · have : ¬ initTracer_cond table s = true := fun hc => h ((initTracer_cond_iff table ht s).1 hc)
    rw [if_neg h, if_neg this]

theorem initMeter_secureOption_eq (s : String) :
    initMeter_secureOption s =
      if s = "" then .WithTLSCredentials tlsCreds else .WithInsecure := by
  unfold initMeter_secureOption
  by_cases h : s = ""
  · subst h; rfl
  · have : len s > 0 := Nat.pos_of_ne_zero (fun h0 => h ((len_eq_zero_iff s).1 h0))
    simp [h, this]

theorem namesFalse_nonempty (s : String) (h : namesFalse s) : s ≠ "" := by
  rintro rfl
  revert h
  decide

/-! ## The claims on the transport selection -/

/-- C1: in `initTracer` the secured (TLS credentials) option is selected exactly
for the flags that are `"false"` or `"f"` in any letter case or are `"0"`, and
the insecure option for every other flag; `"false"`, `"FALSE"`, `"f"`, `"F"`,
`"0"` select the secured option and `""`, `"true"`, `"yes"` the insecure one. -/
theorem initTracer_transport_selection (table : Char → Char)
    (ht : TableKeepsFalseLetters table) (s : String) :
    ((initTracer_secureOption table s).isSecured = true ↔
        (caseInsensitiveEq s "false" ∨ s = "0" ∨ caseInsensitiveEq s "f")) ∧
    ((initTracer_secureOption table s).isInsecure = true ↔
        ¬ (caseInsensitiveEq s "false" ∨ s = "0" ∨ caseInsensitiveEq s "f")) ∧
    initTracer_secureOption table s =
      (if caseInsensitiveEq s "false" ∨ s = "0" ∨ caseInsensitiveEq s "f"
        then .WithTLSCredentials (credentials_NewClientTLSFromCert none "")
        else .WithInsecure) ∧
    (initTracer_secureOption table "false").isSecured = true ∧
    (initTracer_secureOption table "FALSE").isSecured = true ∧
    (initTracer_secureOption table "f").isSecured = true ∧
    (initTracer_secureOption table "F").isSecured = true ∧
    (initTracer_secureOption table "0").isSecured = true ∧
    initTracer_secureOption table "" = .WithInsecure ∧
    initTracer_secureOption table "true" = .WithInsecure ∧
    initTracer_secureOption table "yes" = .WithInsecure := by
  have key := initTracer_secureOption_eq table ht
  refine ⟨?_, ?_, key s, ?_, ?_, ?_, ?_, ?_, ?_, ?_, ?_⟩
  · rw [key s]
    by_cases h : namesFalse s
    · rw [if_pos h]; exact ⟨fun _ => h, fun _ => rfl⟩
    · rw [if_neg h]; exact ⟨fun hc => absurd hc (by decide), fun hn => absurd hn h⟩
  · rw [key s]
    by_cases h : namesFalse s
    · rw [if_pos h]; exact ⟨fun hc => absurd hc (by decide), fun hn => absurd h hn⟩
    · rw [if_neg h]; exact ⟨fun _ => h, fun _ => rfl⟩
  all_goals (rw [key]; decide)

/-- Witness of C1 at the sample case table and the flag `"FALSE"`. -/
theorem initTracer_transport_selection_witness :
    TableKeepsFalseLetters sampleTable ∧
    ((initTracer_secureOption sampleTable "FALSE").isSecured = true ↔
        (caseInsensitiveEq "FALSE" "false" ∨ "FALSE" = "0" ∨ caseInsensitiveEq "FALSE" "f")) ∧
    (initTracer_secureOption sampleTable "FALSE").isSecured = true :=
  ⟨sampleTable_keeps,
   (initTracer_transport_selection sampleTable sampleTable_keeps "FALSE").1,
   (initTracer_transport_selection sampleTable sampleTable_keeps "FALSE").2.2.2.2.1⟩

/-- C2: in `initMeter` the secured (TLS credentials) option is selected exactly
for the empty flag; every non-empty flag, `"false"`, `"0"` and `"f"` among them,
selects the insecure option. -/
theorem initMeter_transport_selection (s : String) :
    ((initMeter_secureOption s).isSecured = true ↔ s = "") ∧
    ((initMeter_secureOption s).isInsecure = true ↔ s ≠ "") ∧
    initMeter_secureOption s =
      (if s = "" then .WithTLSCredentials (credentials_NewClientTLSFromCert none "")
        else .WithInsecure) ∧
    initMeter_secureOption "false" = .WithInsecure ∧
    initMeter_secureOption "0" = .WithInsecure ∧
    initMeter_secureOption "f" = .WithInsecure := by
  refine ⟨?_, ?_, initMeter_secureOption_eq s, by decide, by decide, by decide⟩
  · rw [initMeter_secureOption_eq s]
    by_cases h : s = "" <;> simp [h, otlpmetricgrpc_Option.isSecured]
  · rw [initMeter_secureOption_eq s]
    by_cases h : s = "" <;> simp [h, otlpmetricgrpc_Option.isInsecure]

/-- C3, the claim as stated fails: `"false"` is a flag that is case-insensitively
`"false"`, and the trace pipeline selects the TLS-credentials option for it, not
the plaintext one; `"true"` is another non-empty flag and the trace pipeline
selects the plaintext option for it; the empty flag is another flag and the
metric pipeline selects the TLS-credentials option for it. -/
theorem indicator_meaning_counterexample :
    (caseInsensitiveEq "false" "false" ∧
      initTracer_secureOption sampleTable "false" = .WithTLSCredentials tlsCreds ∧
      (initTracer_secureOption sampleTable "false").isInsecure = false) ∧
    (¬ (caseInsensitiveEq "true" "false" ∨ caseInsensitiveEq "true" "0" ∨
          caseInsensitiveEq "true" "f") ∧ "true" ≠ "" ∧
      (initTracer_secureOption sampleTable "true").isSecured = false) ∧
    (¬ (caseInsensitiveEq "" "false" ∨ caseInsensitiveEq "" "0" ∨
          caseInsensitiveEq "" "f") ∧
      (initMeter_secureOption "").isInsecure = false) := by
  decide

/-- C3, amended: for a flag that is `"false"` or `"f"` in any letter case or is
`"0"`, the trace pipeline selects the TLS-credentials option and the metric
pipeline the plaintext one; for the empty flag the trace pipeline selects the
plaintext option and the metric pipeline the TLS-credentials one; for every
other flag both pipelines select the plaintext option. -/
theorem indicator_meaning_amended (table : Char → Char)
    (ht : TableKeepsFalseLetters table) (s : String) :
    (initTracer_secureOption table s, initMeter_secureOption s) =
      (if caseInsensitiveEq s "false" ∨ s = "0" ∨ caseInsensitiveEq s "f" then
        (.WithTLSCredentials (credentials_NewClientTLSFromCert none ""), .WithInsecure)
      else if s = "" then
        (.WithInsecure, .WithTLSCredentials (credentials_NewClientTLSFromCert none ""))
      else
        (.WithInsecure, .WithInsecure)) := by
  rw [initTracer_secureOption_eq table ht s, initMeter_secureOption_eq s]
  by_cases h : namesFalse s
  · have hne := namesFalse_nonempty s h
    have h' : caseInsensitiveEq s "false" ∨ s = "0" ∨ caseInsensitiveEq s "f" := h
    rw [if_pos h, if_neg hne, if_pos h']; rfl
  · have h' : ¬ (caseInsensitiveEq s "false" ∨ s = "0" ∨ caseInsensitiveEq s "f") := h
    rw [if_neg h, if_neg h']
    by_cases he : s = ""
    · rw [if_pos he, if_pos he]; rfl
    · rw [if_neg he, if_neg he]

/-- Witness of the amended C3 at the sample case table and the flag `"F"`. -/
theorem indicator_meaning_amended_witness :
    TableKeepsFalseLetters sampleTable ∧
    (initTracer_secureOption sampleTable "F", initMeter_secureOption "F") =
      (if caseInsensitiveEq "F" "false" ∨ "F" = "0" ∨ caseInsensitiveEq "F" "f" then
        (.WithTLSCredentials (credentials_NewClientTLSFromCert none ""), .WithInsecure)
      else if "F" = "" then
        (.WithInsecure, .WithTLSCredentials (credentials_NewClientTLSFromCert none ""))
      else
        (.WithInsecure, .WithInsecure)) :=
  ⟨sampleTable_keeps, indicator_meaning_amended sampleTable sampleTable_keeps "F"⟩

/-- C10: no flag makes both pipelines select the secured option; the two
pipelines select the same transport exactly for the non-empty flags that are
none of `"false"` / `"f"` in any letter case and `"0"`, and then both are
insecure; for the empty flag only the metric pipeline is secured; for the
`"false"` / `"0"` / `"f"` flags only the trace pipeline is secured. -/
theorem transport_rules_relation (table : Char → Char)
    (ht : TableKeepsFalseLetters table) (s : String) :
    ¬ ((initTracer_secureOption table s).isSecured = true ∧
        (initMeter_secureOption s).isSecured = true) ∧
    ((initTracer_secureOption table s).isSecured = (initMeter_secureOption s).isSecured ↔
      (s ≠ "" ∧ ¬ (caseInsensitiveEq s "false" ∨ s = "0" ∨ caseInsensitiveEq s "f"))) ∧
    (if s = "" then
      (initTracer_secureOption table s).isInsecure = true ∧
        (initMeter_secureOption s).isSecured = true
    else if caseInsensitiveEq s "false" ∨ s = "0" ∨ caseInsensitiveEq s "f" then
      (initTracer_secureOption table s).isSecured = true ∧
        (initMeter_secureOption s).isInsecure = true
    else
      (initTracer_secureOption table s).isInsecure = true ∧
        (initMeter_secureOption s).isInsecure = true) := by
  rw [initTracer_secureOption_eq table ht s, initMeter_secureOption_eq s]
  by_cases he : s = ""
  · have hn : ¬ namesFalse s := fun h => namesFalse_nonempty s h he
    have hn' : ¬ (caseInsensitiveEq s "false" ∨ s = "0" ∨ caseInsensitiveEq s "f") := hn
    rw [if_neg hn, if_pos he, if_pos he]
    refine ⟨by decide, ⟨fun h => absurd h (by decide), fun h => absurd he h.1⟩, by decide⟩
  · by_cases h : namesFalse s
    · have h' : caseInsensitiveEq s "false" ∨ s = "0" ∨ caseInsensitiveEq s "f" := h
      rw [if_pos h, if_neg he, if_neg he, if_pos h']
      refine ⟨by decide, ⟨fun hc => absurd hc (by decide), fun hc => absurd h hc.2⟩, by decide⟩
    · have h' : ¬ (caseInsensitiveEq s "false" ∨ s = "0" ∨ caseInsensitiveEq s "f") := h
      rw [if_neg h, if_neg he, if_neg he, if_neg h']
      refine ⟨by decide, ⟨fun _ => ⟨he, h⟩, fun _ => rfl⟩, by decide⟩

/-- Witness of C10 at the sample case table and the flag `"yes"`. -/
theorem transport_rules_relation_witness :
    TableKeepsFalseLetters sampleTable ∧
    ¬ ((initTracer_secureOption sampleTable "yes").isSecured = true ∧
        (initMeter_secureOption "yes").isSecured = true) ∧
    ((initTracer_secureOption sampleTable "yes").isSecured =
        (initMeter_secureOption "yes").isSecured ↔
      ("yes" ≠ "" ∧
        ¬ (caseInsensitiveEq "yes" "false" ∨ "yes" = "0" ∨ caseInsensitiveEq "yes" "f"))) :=
  ⟨sampleTable_keeps,
   (transport_rules_relation sampleTable sampleTable_keeps "yes").1,
   (transport_rules_relation sampleTable sampleTable_keeps "yes").2.1⟩

/-! ## The claims on the handle -/

theorem drop_append_self (l m : List Event) : (l ++ m).drop l.length = m := by
  simp

/-- C4: on a handle whose trace shutdown callback and whose metric provider are
both non-nil, `Cleanup` returns normally whatever the two shutdowns answer; it
calls the trace shutdown callback exactly once and `Shutdown` of the metric
provider exactly once, both with the context of the caller, the second also
after an error of the first; an error is logged and nothing else happens. -/
theorem Cleanup_both_non_nil (sdk : SDK) (t : tracer)
    (f : World → Context → Option Error) (mp : metricsdk_MeterProvider)
    (ctx : Context) (w : World)
    (h1 : t.tracerShutdown = some f) (h2 : t.meterProvider = some mp) :
    ∃ w1 w2 : World,
      w1 = { w with events := w.events ++
        ([.tracerShutdown ctx] ++ errLog "Error shutting down tracer: " (f w ctx)) } ∧
      w2 = { w1 with events := w1.events ++
        ([.meterProvider_Shutdown mp ctx] ++
          errLog "Error shutting down meter provider: " (sdk.meterProvider_Shutdown mp w1 ctx) ++
          [.log_Println "Tracer cleaned up"]) } ∧
      Cleanup sdk t ctx w = .returned () w2 ∧
      (newEvents w (Cleanup sdk t ctx w)).filter Event.isTracerShutdown =
        [.tracerShutdown ctx] ∧
      (newEvents w (Cleanup sdk t ctx w)).filter Event.isMeterProviderShutdown =
        [.meterProvider_Shutdown mp ctx] := by
  refine ⟨_, _, rfl, rfl, ?_⟩
  have hrun : Cleanup sdk t ctx w = .returned ()
      { w with events := (w.events ++
        ([.tracerShutdown ctx] ++ errLog "Error shutting down tracer: " (f w ctx))) ++
        ([.meterProvider_Shutdown mp ctx] ++
          errLog "Error shutting down meter provider: "
            (sdk.meterProvider_Shutdown mp { w with events := w.events ++
              ([.tracerShutdown ctx] ++ errLog "Error shutting down tracer: " (f w ctx)) } ctx) ++
          [.log_Println "Tracer cleaned up"]) } := by
    simp only [Cleanup, h1, h2]
    cases hf : f w ctx <;>
      simp only [errLog, World.emit, log_Println, log_Printf, List.append_assoc,
        List.cons_append, List.nil_append, List.append_nil] <;>
      split <;> simp_all
  refine ⟨hrun, ?_, ?_⟩
  · rw [hrun]
    simp only [newEvents, Outcome.world, List.append_assoc, drop_append_self]
    cases f w ctx <;>
      cases sdk.meterProvider_Shutdown mp _ ctx <;>
        simp [errLog, Event.isTracerShutdown]
  · rw [hrun]
    simp only [newEvents, Outcome.world, List.append_assoc, drop_append_self]
    cases f w ctx <;>
      cases sdk.meterProvider_Shutdown mp _ ctx <;>
        simp [errLog, Event.isMeterProviderShutdown]

/-- Witness of C4: the sample handle, whose trace shutdown reports an error. -/
theorem Cleanup_both_non_nil_witness :
    sampleHandle.tracerShutdown = some sampleShutdown ∧
    sampleHandle.meterProvider = some (metricsdk_NewMeterProvider []) ∧
    (newEvents World.fresh (Cleanup sampleSDK sampleHandle (.Caller 7) World.fresh)).filter
        Event.isMeterProviderShutdown =
      [.meterProvider_Shutdown (metricsdk_NewMeterProvider []) (.Caller 7)] :=
  ⟨rfl, rfl,
   let ⟨_, _, _, _, _, _, h⟩ :=
     Cleanup_both_non_nil sampleSDK sampleHandle sampleShutdown (metricsdk_NewMeterProvider [])
       (.Caller 7) World.fresh rfl rfl
   h⟩

/-- C5: on a handle whose trace shutdown callback is nil, `Cleanup` returns
normally and calls no trace shutdown; it calls `Shutdown` of the metric provider
exactly once, with the context of the caller, when the provider is non-nil, and
calls nothing when the provider is nil too. -/
theorem Cleanup_nil_trace_shutdown (sdk : SDK) (t : tracer) (ctx : Context) (w : World)
    (h : t.tracerShutdown = none) :
    ∃ w' : World,
      Cleanup sdk t ctx w = .returned () w' ∧
      (newEvents w (Cleanup sdk t ctx w)).filter Event.isTracerShutdown = [] ∧
      newEvents w (Cleanup sdk t ctx w) =
        (match t.meterProvider with
          | some mp =>
            [.meterProvider_Shutdown mp ctx] ++
              errLog "Error shutting down meter provider: "
                (sdk.meterProvider_Shutdown mp w ctx) ++
              [.log_Println "Tracer cleaned up"]
          | none => [.log_Println "Tracer cleaned up"]) ∧
      (newEvents w (Cleanup sdk t ctx w)).filter Event.isMeterProviderShutdown =
        (match t.meterProvider with
          | some mp => [.meterProvider_Shutdown mp ctx]
          | none => []) := by
  cases hmp : t.meterProvider with
  | none =>
    refine ⟨_, by simp only [Cleanup, h, hmp]; rfl, ?_, ?_, ?_⟩ <;>
      simp [Cleanup, h, hmp, newEvents, Outcome.world, log_Println, World.emit,
        Event.isTracerShutdown, Event.isMeterProviderShutdown]
  | some mp =>
    cases hm : sdk.meterProvider_Shutdown mp w ctx with
    | none =>
      refine ⟨_, by simp only [Cleanup, h, hmp, hm]; rfl, ?_, ?_, ?_⟩ <;>
        simp [Cleanup, h, hmp, hm, newEvents, Outcome.world, log_Println, World.emit, errLog,
          Event.isTracerShutdown, Event.isMeterProviderShutdown]
    | some e =>
      refine ⟨_, by simp only [Cleanup, h, hmp, hm]; rfl, ?_, ?_, ?_⟩ <;>
        simp [Cleanup, h, hmp, hm, newEvents, Outcome.world, log_Println, log_Printf,
          World.emit, errLog, Event.isTracerShutdown, Event.isMeterProviderShutdown]

/-- Witness of C5: the sample handle without a trace shutdown callback. -/
theorem Cleanup_nil_trace_shutdown_witness :
    sampleHandleNoShutdown.tracerShutdown = none ∧
    (newEvents World.fresh
        (Cleanup sampleSDK sampleHandleNoShutdown (.Caller 7) World.fresh)).filter
        Event.isMeterProviderShutdown =
      (match sampleHandleNoShutdown.meterProvider with
        | some mp => [.meterProvider_Shutdown mp (.Caller 7)]
        | none => []) :=
  ⟨rfl,
   let ⟨_, _, _, _, h⟩ :=
     Cleanup_nil_trace_shutdown sampleSDK sampleHandleNoShutdown (.Caller 7) World.fresh rfl
   h⟩

/-- C6: `StartSpan(ctx, n)` on a handle with the tracer `tr` returns the pair
that `tr.Start(ctx, n)` returns; `Start` is called once, with the same context
and name and without options, and nothing else happens: the wrapper checks
nothing and has no error result. -/
theorem StartSpan_delegates (sdk : SDK) (t : tracer) (tr : oteltrace_Tracer)
    (ctx : Context) (n : String) (w : World) (h : t.otelTracer = some tr) :
    StartSpan sdk t ctx n w =
      .returned (sdk.tracer_Start tr w ctx n []) (w.emit (.otelTracer_Start tr ctx n [])) ∧
    newEvents w (StartSpan sdk t ctx n w) = [.otelTracer_Start tr ctx n []] := by
  have hrun : StartSpan sdk t ctx n w =
      .returned (sdk.tracer_Start tr w ctx n []) (w.emit (.otelTracer_Start tr ctx n [])) := by
    simp only [StartSpan, h]
  refine ⟨hrun, ?_⟩
  rw [hrun]
  simp [newEvents, Outcome.world, World.emit]

/-- Witness of C6: the sample handle, span name `"X"`. -/
theorem StartSpan_delegates_witness :
    sampleHandle.otelTracer = some ⟨.default, "svc"⟩ ∧
    StartSpan sampleSDK sampleHandle .Background "X" World.fresh =
      .returned (sampleSDK.tracer_Start ⟨.default, "svc"⟩ World.fresh .Background "X" [])
        (World.fresh.emit (.otelTracer_Start ⟨.default, "svc"⟩ .Background "X" [])) :=
  ⟨rfl, (StartSpan_delegates sampleSDK sampleHandle ⟨.default, "svc"⟩ .Background "X"
    World.fresh rfl).1⟩

/-! ## The course of `InitTracer` -/

/-- The outcome of `initTracer` inside `InitTracer`. -/
theorem initTracer_run (sdk : SDK) (collectorURL serviceName insecure : String) (w : World) :
    initTracer sdk (receiver collectorURL serviceName insecure w) w =
      match traceExporterAnswer sdk collectorURL insecure w with
      | some e =>
        .exited 1 ((atTraceResource sdk collectorURL insecure w).emit
          (.log_Fatalf ("Failed to create exporter: " ++ e)))
      | none =>
        match traceResourceAnswer sdk collectorURL serviceName insecure w with
        | some e =>
          .exited 1 (((atTraceResource sdk collectorURL insecure w).emit
            (.resource_New .Background (traceResourceOpts serviceName))).emit
            (.log_Fatalf ("Could not set resources: " ++ e)))
        | none =>
          .returned
            (sdk.exporter_Shutdown ⟨.Background, traceClient sdk collectorURL insecure⟩)
            (afterInitTracer sdk collectorURL serviceName insecure w) := by
  rfl

/-- The outcome of `initMeter` inside `InitTracer`. -/
theorem initMeter_run (sdk : SDK) (collectorURL serviceName insecure : String) (w : World)
    (f : World → Context → Option Error) :
    initMeter sdk
        { receiver collectorURL serviceName insecure w with tracerShutdown := some f }
        (afterInitTracer sdk collectorURL serviceName insecure w) =
      match metricExporterAnswer sdk collectorURL serviceName insecure w with
      | some e =>
        .exited 1 ((atMetricResource sdk collectorURL serviceName insecure w).emit
          (.log_Fatalf ("Failed to create exporter: " ++ e)))
      | none =>
        match metricResourceAnswer sdk collectorURL serviceName insecure w with
        | some e =>
          .exited 1 ((afterInitMeter sdk collectorURL serviceName insecure w).emit
            (.log_Fatalf ("Could not set resources: " ++ e)))
        | none =>
          .returned (builtMeterProvider collectorURL serviceName insecure)
            (afterInitMeter sdk collectorURL serviceName insecure w) := by
  rfl

/-- The two calls of `InitTracer` in sequence. -/
theorem InitTracer_seq (sdk : SDK) (collectorURL serviceName insecure : String) (w : World) :
    InitTracer sdk collectorURL serviceName insecure w =
      match initTracer sdk (receiver collectorURL serviceName insecure w) w with
      | .exited code w1 => .exited code w1
      | .panicked w1 => .panicked w1
      | .returned tracerShutdown w1 =>
        match initMeter sdk
            { receiver collectorURL serviceName insecure w with
              tracerShutdown := some tracerShutdown } w1 with
        | .exited code w2 => .exited code w2
        | .panicked w2 => .panicked w2
        | .returned meterProvider w2 =>
          .returned
            { receiver collectorURL serviceName insecure w with
              tracerShutdown := some tracerShutdown
              meterProvider := some meterProvider
              meter := some (meterProvider.Meter serviceName) }
            (generateMetrics
              { receiver collectorURL serviceName insecure w with
                tracerShutdown := some tracerShutdown
                meterProvider := some meterProvider
                meter := some (meterProvider.Meter serviceName) } w2) := by
  rfl

/-- The outcome of `InitTracer` by the answers of the four constructions. -/
theorem InitTracer_eq (sdk : SDK) (collectorURL serviceName insecure : String) (w : World) :
    InitTracer sdk collectorURL serviceName insecure w =
      match traceExporterAnswer sdk collectorURL insecure w with
      | some e =>
        .exited 1 ((atTraceResource sdk collectorURL insecure w).emit
          (.log_Fatalf ("Failed to create exporter: " ++ e)))
      | none =>
        match traceResourceAnswer sdk collectorURL serviceName insecure w with
        | some e =>
          .exited 1 (((atTraceResource sdk collectorURL insecure w).emit
            (.resource_New .Background (traceResourceOpts serviceName))).emit
            (.log_Fatalf ("Could not set resources: " ++ e)))
        | none =>
          match metricExporterAnswer sdk collectorURL serviceName insecure w with
          | some e =>
            .exited 1 ((atMetricResource sdk collectorURL serviceName insecure w).emit
              (.log_Fatalf ("Failed to create exporter: " ++ e)))
          | none =>
            match metricResourceAnswer sdk collectorURL serviceName insecure w with
            | some e =>
              .exited 1 ((afterInitMeter sdk collectorURL serviceName insecure w).emit
                (.log_Fatalf ("Could not set resources: " ++ e)))
            | none =>
              .returned (returnedHandle sdk collectorURL serviceName insecure w)
                (generateMetrics (returnedHandle sdk collectorURL serviceName insecure w)
                  (afterInitMeter sdk collectorURL serviceName insecure w)) := by
  rw [InitTracer_seq, initTracer_run]
  cases h1 : traceExporterAnswer sdk collectorURL insecure w with
  | some e => rfl
  | none =>
    cases h2 : traceResourceAnswer sdk collectorURL serviceName insecure w with
    | some e => rfl
    | none =>
      simp only []
      rw [initMeter_run]
      cases h3 : metricExporterAnswer sdk collectorURL serviceName insecure w with
      | some e => rfl
      | none =>
        cases h4 : metricResourceAnswer sdk collectorURL serviceName insecure w with
        | some e => rfl
        | none => rfl

theorem afterInitTracer_events (sdk : SDK) (collectorURL serviceName insecure : String)
    (w : World) :
    (afterInitTracer sdk collectorURL serviceName insecure w).events =
      w.events ++ traceSetupEvents sdk collectorURL serviceName insecure := by
  simp [afterInitTracer, atTraceResource, log_Println, otel_SetTextMapPropagator,
    otel_SetTracerProvider, World.emit, traceSetupEvents]

theorem afterInitMeter_events (sdk : SDK) (collectorURL serviceName insecure : String)
    (w : World) :
    (afterInitMeter sdk collectorURL serviceName insecure w).events =
      w.events ++ traceSetupEvents sdk collectorURL serviceName insecure ++
        metricSetupEvents collectorURL serviceName insecure := by
  simp [afterInitMeter, atMetricResource, afterInitTracer_events, World.emit, metricSetupEvents]

theorem generateMetrics_events (t : tracer) (w : World) :
    (generateMetrics t w).events = w.events ++ emitterEvents t.meter := by
  simp [generateMetrics, World.emit, emitterEvents]

theorem filter_isGo_traceSetupEvents (sdk : SDK) (collectorURL serviceName insecure : String) :
    (traceSetupEvents sdk collectorURL serviceName insecure).filter Event.isGo = [] := by
  simp [traceSetupEvents, Event.isGo]

theorem filter_isGo_metricSetupEvents (collectorURL serviceName insecure : String) :
    (metricSetupEvents collectorURL serviceName insecure).filter Event.isGo = [] := by
  simp [metricSetupEvents, Event.isGo]

/-- The five courses of `InitTracer`, with the effects of each. -/
theorem InitTracer_cases (sdk : SDK) (collectorURL serviceName insecure : String) (w : World) :
    (∃ e w', traceExporterAnswer sdk collectorURL insecure w = some e ∧
      InitTracer sdk collectorURL serviceName insecure w = .exited 1 w' ∧
      w'.events = w.events ++
        [.otlptrace_New .Background (traceClient sdk collectorURL insecure),
         .log_Fatalf ("Failed to create exporter: " ++ e)]) ∨
    (∃ e w', traceExporterAnswer sdk collectorURL insecure w = none ∧
      traceResourceAnswer sdk collectorURL serviceName insecure w = some e ∧
      InitTracer sdk collectorURL serviceName insecure w = .exited 1 w' ∧
      w'.events = w.events ++
        [.otlptrace_New .Background (traceClient sdk collectorURL insecure),
         .resource_New .Background (traceResourceOpts serviceName),
         .log_Fatalf ("Could not set resources: " ++ e)]) ∨
    (∃ e w', traceExporterAnswer sdk collectorURL insecure w = none ∧
      traceResourceAnswer sdk collectorURL serviceName insecure w = none ∧
      metricExporterAnswer sdk collectorURL serviceName insecure w = some e ∧
      InitTracer sdk collectorURL serviceName insecure w = .exited 1 w' ∧
      w'.events = w.events ++ traceSetupEvents sdk collectorURL serviceName insecure ++
        [.otlpmetricgrpc_New .Background (metricExporterOpts collectorURL insecure),
         .log_Fatalf ("Failed to create exporter: " ++ e)]) ∨
    (∃ e w', traceExporterAnswer sdk collectorURL insecure w = none ∧
      traceResourceAnswer sdk collectorURL serviceName insecure w = none ∧
      metricExporterAnswer sdk collectorURL serviceName insecure w = none ∧
      metricResourceAnswer sdk collectorURL serviceName insecure w = some e ∧
      InitTracer sdk collectorURL serviceName insecure w = .exited 1 w' ∧
      w'.events = w.events ++ traceSetupEvents sdk collectorURL serviceName insecure ++
        [.otlpmetricgrpc_New .Background (metricExporterOpts collectorURL insecure),
         .resource_New .Background (metricResourceOpts serviceName),
         .log_Fatalf ("Could not set resources: " ++ e)]) ∨
    (∃ w', traceExporterAnswer sdk collectorURL insecure w = none ∧
      traceResourceAnswer sdk collectorURL serviceName insecure w = none ∧
      metricExporterAnswer sdk collectorURL serviceName insecure w = none ∧
      metricResourceAnswer sdk collectorURL serviceName insecure w = none ∧
      InitTracer sdk collectorURL serviceName insecure w =
        .returned (returnedHandle sdk collectorURL serviceName insecure w) w' ∧
      w' = generateMetrics (returnedHandle sdk collectorURL serviceName insecure w)
        (afterInitMeter sdk collectorURL serviceName insecure w) ∧
      w'.events = w.events ++ traceSetupEvents sdk collectorURL serviceName insecure ++
        metricSetupEvents collectorURL serviceName insecure ++
        emitterEvents (some ((builtMeterProvider collectorURL serviceName insecure).Meter
          serviceName))) := by
  have key := InitTracer_eq sdk collectorURL serviceName insecure w
  cases h1 : traceExporterAnswer sdk collectorURL insecure w with
  | some e =>
    rw [h1] at key
    exact Or.inl ⟨e, _, rfl, key, by simp [World.emit, atTraceResource]⟩
  | none =>
    cases h2 : traceResourceAnswer sdk collectorURL serviceName insecure w with
    | some e =>
      rw [h1, h2] at key
      exact Or.inr (Or.inl ⟨e, _, rfl, rfl, key, by simp [World.emit, atTraceResource]⟩)
    | none =>
      cases h3 : metricExporterAnswer sdk collectorURL serviceName insecure w with
      | some e =>
        rw [h1, h2, h3] at key
        exact Or.inr (Or.inr (Or.inl ⟨e, _, rfl, rfl, rfl, key, by
          simp [World.emit, atMetricResource, afterInitTracer_events]⟩))
      | none =>
        cases h4 : metricResourceAnswer sdk collectorURL serviceName insecure w with
        | some e =>
          rw [h1, h2, h3, h4] at key
          exact Or.inr (Or.inr (Or.inr (Or.inl ⟨e, _, rfl, rfl, rfl, rfl, key, by
            simp [World.emit, afterInitMeter_events, metricSetupEvents]⟩)))
        | none =>
          rw [h1, h2, h3, h4] at key
          exact Or.inr (Or.inr (Or.inr (Or.inr ⟨_, rfl, rfl, rfl, rfl, key, rfl, by
            rw [generateMetrics_events, afterInitMeter_events]; rfl⟩)))

theorem filter_isGo_emitterEvents (m : Option api_Meter) :
    (emitterEvents m).filter Event.isGo = emitterEvents m := by
  simp [emitterEvents, Event.isGo]

/-! ## The claims on the construction of the handle -/

/-- C7: `InitTracer` returns a handle exactly when the trace exporter, the trace
resource, the metric exporter and the metric resource are all constructed
without error. When one of the four constructions fails, the process exits with
status 1 right after the failure is logged: the failed construction and the
fatal log line are the last effects, no later step runs, no `go` statement is
executed, and no handle is returned. -/
theorem InitTracer_fatal_on_construction_failure (sdk : SDK)
    (collectorURL serviceName insecure : String) (w : World) :
    ((∃ t w', InitTracer sdk collectorURL serviceName insecure w = .returned t w') ↔
      (traceExporterAnswer sdk collectorURL insecure w = none ∧
        traceResourceAnswer sdk collectorURL serviceName insecure w = none ∧
        metricExporterAnswer sdk collectorURL serviceName insecure w = none ∧
        metricResourceAnswer sdk collectorURL serviceName insecure w = none)) ∧
    (∀ e, traceExporterAnswer sdk collectorURL insecure w = some e →
      ∃ w', InitTracer sdk collectorURL serviceName insecure w = .exited 1 w' ∧
        w'.events = w.events ++
          [.otlptrace_New .Background (traceClient sdk collectorURL insecure),
           .log_Fatalf ("Failed to create exporter: " ++ e)]) ∧
    (∀ e, traceExporterAnswer sdk collectorURL insecure w = none →
      traceResourceAnswer sdk collectorURL serviceName insecure w = some e →
      ∃ w', InitTracer sdk collectorURL serviceName insecure w = .exited 1 w' ∧
        w'.events = w.events ++
          [.otlptrace_New .Background (traceClient sdk collectorURL insecure),
           .resource_New .Background (traceResourceOpts serviceName),
           .log_Fatalf ("Could not set resources: " ++ e)]) ∧
    (∀ e, traceExporterAnswer sdk collectorURL insecure w = none →
      traceResourceAnswer sdk collectorURL serviceName insecure w = none →
      metricExporterAnswer sdk collectorURL serviceName insecure w = some e →
      ∃ w', InitTracer sdk collectorURL serviceName insecure w = .exited 1 w' ∧
        w'.events = w.events ++ traceSetupEvents sdk collectorURL serviceName insecure ++
          [.otlpmetricgrpc_New .Background (metricExporterOpts collectorURL insecure),
           .log_Fatalf ("Failed to create exporter: " ++ e)]) ∧
    (∀ e, traceExporterAnswer sdk collectorURL insecure w = none →
      traceResourceAnswer sdk collectorURL serviceName insecure w = none →
      metricExporterAnswer sdk collectorURL serviceName insecure w = none →
      metricResourceAnswer sdk collectorURL serviceName insecure w = some e →
      ∃ w', InitTracer sdk collectorURL serviceName insecure w = .exited 1 w' ∧
        w'.events = w.events ++ traceSetupEvents sdk collectorURL serviceName insecure ++
          [.otlpmetricgrpc_New .Background (metricExporterOpts collectorURL insecure),
           .resource_New .Background (metricResourceOpts serviceName),
           .log_Fatalf ("Could not set resources: " ++ e)]) ∧
    (∀ code w', InitTracer sdk collectorURL serviceName insecure w = .exited code w' →
      code = 1 ∧
      (newEvents w (InitTracer sdk collectorURL serviceName insecure w)).filter Event.isGo
        = []) ∧
    (∀ t w', InitTracer sdk collectorURL serviceName insecure w = .returned t w' →
      (newEvents w (InitTracer sdk collectorURL serviceName insecure w)).filter Event.isGo
        = emitterEvents t.meter) ∧
    (∀ w', InitTracer sdk collectorURL serviceName insecure w ≠ .panicked w') := by
  rcases InitTracer_cases sdk collectorURL serviceName insecure w with
    ⟨e, w', h1, hrun, hev⟩ | ⟨e, w', h1, h2, hrun, hev⟩ | ⟨e, w', h1, h2, h3, hrun, hev⟩ |
    ⟨e, w', h1, h2, h3, h4, hrun, hev⟩ | ⟨w', h1, h2, h3, h4, hrun, _, hev⟩
  · refine ⟨?_, ?_, ?_, ?_, ?_, ?_, ?_, ?_⟩ <;>
      simp_all [newEvents, Outcome.world, Event.isGo]
  · refine ⟨?_, ?_, ?_, ?_, ?_, ?_, ?_, ?_⟩ <;>
      simp_all [newEvents, Outcome.world, Event.isGo]
  · refine ⟨?_, ?_, ?_, ?_, ?_, ?_, ?_, ?_⟩ <;>
      simp_all [newEvents, Outcome.world, Event.isGo, traceSetupEvents]
  · refine ⟨?_, ?_, ?_, ?_, ?_, ?_, ?_, ?_⟩ <;>
      simp_all [newEvents, Outcome.world, Event.isGo, traceSetupEvents]
  · refine ⟨?_, ?_, ?_, ?_, ?_, ?_, ?_, ?_⟩ <;>
      simp_all [newEvents, Outcome.world, Event.isGo, filter_isGo_traceSetupEvents,
        filter_isGo_metricSetupEvents, filter_isGo_emitterEvents, returnedHandle]

/-- Witness of C7: the construction of the metric exporter fails. -/
theorem InitTracer_fatal_on_construction_failure_witness :
    traceExporterAnswer failingSDK "localhost:4317" "true" World.fresh = none ∧
    traceResourceAnswer failingSDK "localhost:4317" "svc" "true" World.fresh = none ∧
    metricExporterAnswer failingSDK "localhost:4317" "svc" "true" World.fresh =
      some "connection refused" ∧
    ∃ w', InitTracer failingSDK "localhost:4317" "svc" "true" World.fresh = .exited 1 w' ∧
      w'.events = World.fresh.events ++
        traceSetupEvents failingSDK "localhost:4317" "svc" "true" ++
        [.otlpmetricgrpc_New .Background (metricExporterOpts "localhost:4317" "true"),
         .log_Fatalf ("Failed to create exporter: " ++ "connection refused")] :=
  ⟨rfl, rfl, rfl,
   (InitTracer_fatal_on_construction_failure failingSDK "localhost:4317" "svc" "true"
      World.fresh).2.2.2.1 "connection refused" rfl rfl rfl⟩

/-- C9: the attributes that the trace pipeline and the metric pipeline pass to
`resource.New` are the same two, `service.name` with the configured service name
and `library.language` with `"go"`; every resource request of an `InitTracer`
call carries exactly these two attributes, whatever the endpoint and the
insecure flag are, and a successful call makes exactly two such requests. -/
theorem resource_attributes (sdk : SDK) (collectorURL serviceName insecure : String)
    (w : World) :
    initTracer_attributes serviceName =
      [⟨"service.name", serviceName⟩, ⟨"library.language", "go"⟩] ∧
    initMeter_attributes serviceName =
      [⟨"service.name", serviceName⟩, ⟨"library.language", "go"⟩] ∧
    (∀ ctx opts,
      Event.resource_New ctx opts ∈
        newEvents w (InitTracer sdk collectorURL serviceName insecure w) →
      opts = [.WithAttributes [⟨"service.name", serviceName⟩, ⟨"library.language", "go"⟩]]) ∧
    (∀ t w', InitTracer sdk collectorURL serviceName insecure w = .returned t w' →
      (newEvents w (InitTracer sdk collectorURL serviceName insecure w)).filter
          Event.isResourceNew =
        [.resource_New .Background
            [.WithAttributes [⟨"service.name", serviceName⟩, ⟨"library.language", "go"⟩]],
         .resource_New .Background
            [.WithAttributes [⟨"service.name", serviceName⟩, ⟨"library.language", "go"⟩]]]) := by
  have ht : traceResourceOpts serviceName =
      [.WithAttributes [⟨"service.name", serviceName⟩, ⟨"library.language", "go"⟩]] := rfl
  have hm : metricResourceOpts serviceName =
      [.WithAttributes [⟨"service.name", serviceName⟩, ⟨"library.language", "go"⟩]] := rfl
  refine ⟨rfl, rfl, ?_, ?_⟩
  · intro ctx opts hmem
    rcases InitTracer_cases sdk collectorURL serviceName insecure w with
      ⟨e, w1, h1, hrun, hev⟩ | ⟨e, w1, h1, h2, hrun, hev⟩ | ⟨e, w1, h1, h2, h3, hrun, hev⟩ |
      ⟨e, w1, h1, h2, h3, h4, hrun, hev⟩ | ⟨w1, h1, h2, h3, h4, hrun, hw, hev⟩ <;>
    · rw [hrun] at hmem
      simp [newEvents, Outcome.world, hev, traceSetupEvents, metricSetupEvents,
        emitterEvents, ht, hm] at hmem
      try (first | exact hmem.2 | exact hmem.elim (fun h => h.2) (fun h => h.2))
  · intro t w' hret
    rcases InitTracer_cases sdk collectorURL serviceName insecure w with
      ⟨e, w1, h1, hrun, hev⟩ | ⟨e, w1, h1, h2, hrun, hev⟩ | ⟨e, w1, h1, h2, h3, hrun, hev⟩ |
      ⟨e, w1, h1, h2, h3, h4, hrun, hev⟩ | ⟨w1, h1, h2, h3, h4, hrun, hw, hev⟩
    · rw [hrun] at hret; cases hret
    · rw [hrun] at hret; cases hret
    · rw [hrun] at hret; cases hret
    · rw [hrun] at hret; cases hret
    · rw [hrun]
      simp [newEvents, Outcome.world, hev, traceSetupEvents, metricSetupEvents,
        emitterEvents, ht, hm, Event.isResourceNew]

/-- Witness of C9: a successful call with the sample SDK in a fresh process. -/
theorem resource_attributes_witness :
    InitTracer sampleSDK "collector:4317" "svc" "false" World.fresh =
      .returned (returnedHandle sampleSDK "collector:4317" "svc" "false" World.fresh)
        (generateMetrics (returnedHandle sampleSDK "collector:4317" "svc" "false" World.fresh)
          (afterInitMeter sampleSDK "collector:4317" "svc" "false" World.fresh)) ∧
    (newEvents World.fresh
        (InitTracer sampleSDK "collector:4317" "svc" "false" World.fresh)).filter
        Event.isResourceNew =
      [.resource_New .Background
          [.WithAttributes [⟨"service.name", "svc"⟩, ⟨"library.language", "go"⟩]],
       .resource_New .Background
          [.WithAttributes [⟨"service.name", "svc"⟩, ⟨"library.language", "go"⟩]]] :=
  ⟨rfl, (resource_attributes sampleSDK "collector:4317" "svc" "false" World.fresh).2.2.2 _ _ rfl⟩

end signozutils
